import Mathlib

/-!
Verification of the lyrical-complexity pipeline.

This file gives a shallow embedding, in Lean 4, of the core computations of the
Lyrical-Complexity-Pipeline repository and proves (or refutes) the frozen claims
about it.  Each definition is translated from the Python source:

  - scripts/extract_lyrics.py    (LyricsExtractor.calculate_complexity_metrics,
                                  LyricsExtractor.process_year)
  - scripts/transform_lyrics.py  (LyricsTransformer.clean_data,
                                  LyricsTransformer.calculate_additional_metrics,
                                  LyricsTransformer.generate_insights)
  - airflow/lyrics_complexity_dag.py (data_quality_check)

Modelling conventions:
  - Python floats are modelled as exact rationals; the Python built-in round
    (round half to even) is modelled by bankersRound / roundQ below.
  - Text is modelled as its list of characters; Python str.split() and
    str.split on a newline are modelled by structurally recursive tokenizers.
  - A pandas NaN cell is modelled as none in an Option type; pandas mean, std
    and median skip NaN values, which is modelled by filterMap.
  - A raised Python exception is modelled by an Option-valued result being
    none; pandas Series.idxmin and idxmax raise ValueError on a series without
    values, which the embedding idxminOpt / idxmaxOpt models by returning none.
  - A pandas standard deviation is the square root of the variance; since the
    square root of a rational is in general irrational, the embedding carries
    the squared quantity (the variance, before the final rounding of the
    source).  Square root is strictly monotone on nonnegative reals, so NaN
    versus zero versus positive distinctions are preserved exactly.
-/

namespace LyricsPipeline

/-! ## Rounding: the Python round built-in (round half to even) -/

/-- Python round(x) for a rational x: round to the nearest integer, ties going
to the even integer (banker's rounding, the semantics of the Python built-in
round on exact values). -/
def bankersRound (q : ℚ) : ℤ :=
  if q - (Int.floor q : ℚ) < 1/2 then Int.floor q
  else if 1/2 < q - (Int.floor q : ℚ) then Int.floor q + 1
  else if Int.floor q % 2 = 0 then Int.floor q else Int.floor q + 1

/-- Python round(x, n): round a rational to n decimal digits, ties to even. -/
def roundQ (n : ℕ) (q : ℚ) : ℚ :=
  (bankersRound (q * (10 : ℚ) ^ n) : ℚ) / (10 : ℚ) ^ n

/-! ## MetricCalculator: LyricsExtractor.calculate_complexity_metrics -/

/-- Python str.split() with no separator (the words of the lyrics): split on
runs of whitespace, dropping empty tokens; acc accumulates the current token
in reverse. -/
def pySplitAux : List Char → List Char → List (List Char)
  | [], acc => if acc.isEmpty then [] else [acc.reverse]
  | c :: cs, acc =>
    if c.isWhitespace then
      if acc.isEmpty then pySplitAux cs [] else acc.reverse :: pySplitAux cs []
    else pySplitAux cs (c :: acc)

/-- The whitespace-delimited tokens of a text, as in lyrics.split(). -/
def pyWords (s : List Char) : List (List Char) := pySplitAux s []

/-- Python lyrics.split on the newline character: the newline-separated
segments of the text, empty segments kept. -/
def splitNl : List Char → List (List Char)
  | [] => [[]]
  | c :: cs =>
    if c = '\n' then [] :: splitNl cs
    else
      match splitNl cs with
      | [] => [[c]]
      | l :: ls => (c :: l) :: ls

/-- The sentences of the source: the newline-separated segments that are
non-blank after stripping, i.e. that contain a non-whitespace character. -/
def pySentences (s : List Char) : List (List Char) :=
  (splitNl s).filter (fun l => l.any (fun c => !c.isWhitespace))

/-- The crude syllable proxy of the source: the number of characters of the
lower-cased text that are one of a, e, i, o, u. -/
def vowelCount (s : List Char) : ℕ :=
  ((s.map Char.toLower).filter
    (fun c => decide (c ∈ (['a', 'e', 'i', 'o', 'u'] : List Char)))).length

/-- The metric record returned by calculate_complexity_metrics. -/
structure SongMetrics where
  unique_words : ℕ
  total_words : ℕ
  avg_sentence_length : ℚ
  flesch_kincaid_score : ℚ
  lexical_diversity : ℚ
deriving DecidableEq, Repr

/-- LyricsExtractor.calculate_complexity_metrics.  The lyrics argument is none
when the provider returned no lyrics; the Python guard if not lyrics is true
exactly for None and for the empty string, and both return all-zero metrics. -/
def calculate_complexity_metrics (lyrics : Option (List Char)) : SongMetrics :=
  match lyrics with
  | none => ⟨0, 0, 0, 0, 0⟩
  | some s =>
    if s.isEmpty then ⟨0, 0, 0, 0, 0⟩
    else
      let words := pyWords s
      let total_words := words.length
      let unique_words := words.dedup.length
      let sentences := pySentences s
      let avg_sentence_length : ℚ :=
        if sentences.isEmpty then 0 else (total_words : ℚ) / (sentences.length : ℚ)
      let lexical_diversity : ℚ :=
        if 0 < total_words then (unique_words : ℚ) / (total_words : ℚ) else 0
      let syllables := vowelCount s
      let fk : ℚ :=
        if 0 < total_words then
          206.835 - 1.015 * avg_sentence_length - 84.6 * ((syllables : ℚ) / (total_words : ℚ))
        else 0
      { unique_words := unique_words
        total_words := total_words
        avg_sentence_length := roundQ 2 avg_sentence_length
        flesch_kincaid_score := roundQ 2 fk
        lexical_diversity := roundQ 3 lexical_diversity }

/-- One row produced by LyricsExtractor.process_year for one song. -/
structure RawSong where
  year : ℤ
  rank : ℤ
  title : String
  artist : String
  lyrics_found : Bool
  metrics : SongMetrics
deriving DecidableEq, Repr

/-- The song_data record built inside LyricsExtractor.process_year: the song
identity together with lyrics_found, which the source computes as
lyrics is not None, and the metrics of calculate_complexity_metrics. -/
def mkSongData (year rank : ℤ) (title artist : String)
    (lyrics : Option (List Char)) : RawSong :=
  { year := year, rank := rank, title := title, artist := artist
    lyrics_found := lyrics.isSome
    metrics := calculate_complexity_metrics lyrics }

/-! ## RecordCleaner and Categorizer: LyricsTransformer -/

/-- One row of the tabular data consumed by LyricsTransformer, after the
pd.to_numeric coercion of the five metric columns: a cell that failed to parse
(NaN) is none.  The lyrics_found cell itself can be missing (none). -/
structure SongRecord where
  year : ℤ
  rank : ℤ
  title : String
  artist : String
  lyrics_found : Option Bool
  unique_words : Option ℚ
  total_words : Option ℚ
  avg_sentence_length : Option ℚ
  flesch_kincaid_score : Option ℚ
  lexical_diversity : Option ℚ
deriving DecidableEq, Repr

/-- The flesch_kincaid_score.between(-50, 100) filter of clean_data: pandas
between is inclusive on both ends, and a NaN score compares false. -/
def fkInRange : Option ℚ → Bool
  | some s => decide (-50 ≤ s ∧ s ≤ 100)
  | none => false

/-- LyricsTransformer.clean_data: drop rows whose lyrics_found is missing or
not True, then drop rows whose flesch_kincaid_score is outside the closed
interval from -50 to 100 (a NaN score is dropped too).  The year-to-datetime
conversion and the numeric coercion of the source are identities on this
already-typed representation. -/
def clean_data (records : List SongRecord) : List SongRecord :=
  (records.filter fun r => decide (r.lyrics_found = some true)).filter
    fun r => fkInRange r.flesch_kincaid_score

/-- The complexity_category assignment of calculate_additional_metrics:
pd.cut with bins -inf, 30, 60, 80, inf (right-closed intervals). -/
def complexity_category (score : ℚ) : String :=
  if score ≤ 30 then "Very Complex"
  else if score ≤ 60 then "Complex"
  else if score ≤ 80 then "Moderate"
  else "Simple"

/-- The rank_category assignment of calculate_additional_metrics: pd.cut with
bins 0, 10, 25, 50, 100 (right-closed intervals); a rank outside the overall
range 0 exclusive to 100 inclusive falls in no bin and gets NaN (none). -/
def rank_category (rank : ℤ) : Option String :=
  if 0 < rank ∧ rank ≤ 10 then some "Top 10"
  else if 10 < rank ∧ rank ≤ 25 then some "Top 25"
  else if 25 < rank ∧ rank ≤ 50 then some "Top 50"
  else if 50 < rank ∧ rank ≤ 100 then some "Top 100"
  else none

/-! ## Aggregator: LyricsTransformer.calculate_additional_metrics -/

/-- The mean of a list of rationals (unguarded; callers guard emptiness). -/
def meanQ (xs : List ℚ) : ℚ := xs.sum / (xs.length : ℚ)

/-- The pandas mean of a column: NaN (none) on an empty set of values. -/
def meanOpt (xs : List ℚ) : Option ℚ :=
  if xs.isEmpty then none else some (meanQ xs)

/-- The pandas median of a column of values: sort ascending, take the middle
value, or the average of the two middle values when the count is even;
NaN (none) on an empty set of values. -/
def medianOpt (xs : List ℚ) : Option ℚ :=
  if xs.isEmpty then none
  else
    let s := List.insertionSort (· ≤ ·) xs
    if s.length % 2 = 1 then some (s.getD (s.length / 2) 0)
    else some ((s.getD (s.length / 2 - 1) 0 + s.getD (s.length / 2) 0) / 2)

/-- The square of the pandas std of a column of values: the sample variance
with divisor n - 1 (ddof = 1), NaN (none) when fewer than two values are
present.  The source reports the square root of this quantity. -/
def stdsqOpt (xs : List ℚ) : Option ℚ :=
  if xs.length ≤ 1 then none
  else some (((xs.map fun x => (x - meanQ xs) ^ 2).sum) / ((xs.length : ℚ) - 1))

/-- The non-NaN values of one metric column restricted to one year group, as
pandas groupby aggregation sees them (NaN cells are skipped). -/
def colOf (f : SongRecord → Option ℚ) (records : List SongRecord) (y : ℤ) : List ℚ :=
  (records.filter fun r => decide (r.year = y)).filterMap f

/-- The group keys of groupby on the year column: the distinct years present,
in ascending order (pandas groupby sorts the keys). -/
def sortedYears (records : List SongRecord) : List ℤ :=
  List.insertionSort (· ≤ ·) (records.map SongRecord.year).dedup

/-- One row of the yearly_stats table: mean, squared std and median of each of
the four numeric metrics of the year group (each rounded to 3 decimals in the
source; the squared std is carried unrounded, see the header note), plus the
complexity_trend column added afterwards. -/
structure YearlyStat where
  year : ℤ
  flesch_kincaid_score_mean : Option ℚ
  flesch_kincaid_score_stdsq : Option ℚ
  flesch_kincaid_score_median : Option ℚ
  lexical_diversity_mean : Option ℚ
  lexical_diversity_stdsq : Option ℚ
  lexical_diversity_median : Option ℚ
  unique_words_mean : Option ℚ
  unique_words_stdsq : Option ℚ
  unique_words_median : Option ℚ
  total_words_mean : Option ℚ
  total_words_stdsq : Option ℚ
  total_words_median : Option ℚ
  complexity_trend : Option ℚ
deriving DecidableEq, Repr

/-- The aggregation row of one year group, before the complexity_trend column
is added (the .agg call with mean, std, median over the four metrics,
rounded to 3 decimals). -/
def baseStat (records : List SongRecord) (y : ℤ) : YearlyStat :=
  { year := y
    flesch_kincaid_score_mean :=
      (meanOpt (colOf SongRecord.flesch_kincaid_score records y)).map (roundQ 3)
    flesch_kincaid_score_stdsq :=
      stdsqOpt (colOf SongRecord.flesch_kincaid_score records y)
    flesch_kincaid_score_median :=
      (medianOpt (colOf SongRecord.flesch_kincaid_score records y)).map (roundQ 3)
    lexical_diversity_mean :=
      (meanOpt (colOf SongRecord.lexical_diversity records y)).map (roundQ 3)
    lexical_diversity_stdsq :=
      stdsqOpt (colOf SongRecord.lexical_diversity records y)
    lexical_diversity_median :=
      (medianOpt (colOf SongRecord.lexical_diversity records y)).map (roundQ 3)
    unique_words_mean :=
      (meanOpt (colOf SongRecord.unique_words records y)).map (roundQ 3)
    unique_words_stdsq :=
      stdsqOpt (colOf SongRecord.unique_words records y)
    unique_words_median :=
      (medianOpt (colOf SongRecord.unique_words records y)).map (roundQ 3)
    total_words_mean :=
      (meanOpt (colOf SongRecord.total_words records y)).map (roundQ 3)
    total_words_stdsq :=
      stdsqOpt (colOf SongRecord.total_words records y)
    total_words_median :=
      (medianOpt (colOf SongRecord.total_words records y)).map (roundQ 3)
    complexity_trend := none }

/-- The pandas Series.diff of a column: entry i is value i minus value i - 1,
the first entry is NaN, and a NaN operand makes the entry NaN. -/
def seriesDiff (xs : List (Option ℚ)) : List (Option ℚ) :=
  match xs with
  | [] => []
  | _ :: rest =>
    none :: List.zipWith
      (fun cur prev => prev.bind fun pv => cur.map fun cv => cv - pv) rest xs

/-- The yearly_stats table of calculate_additional_metrics: one aggregation
row per distinct year in ascending order, with the complexity_trend column set
to the Series.diff of the flesch_kincaid_score_mean column. -/
def yearly_stats (records : List SongRecord) : List YearlyStat :=
  let base := (sortedYears records).map (baseStat records)
  List.zipWith (fun st t => { st with complexity_trend := t })
    base (seriesDiff (base.map YearlyStat.flesch_kincaid_score_mean))

/-! ## InsightExtractor: LyricsTransformer.generate_insights -/

/-- The accumulator step of idxminAux: keep the running (index, value) pair of
the least value seen, replacing only on a strictly smaller value, so the first
occurrence of the minimum wins; NaN entries are skipped. -/
def idxminAux : ℕ → Option (ℕ × ℚ) → List (Option ℚ) → Option ℕ
  | _, acc, [] => acc.map Prod.fst
  | i, acc, x :: xs =>
    idxminAux (i + 1)
      (match x, acc with
       | none, a => a
       | some v, none => some (i, v)
       | some v, some q => if v < q.2 then some (i, v) else some q) xs

/-- pandas Series.idxmin: the position of the least non-NaN value, first
occurrence on ties; none models the ValueError raised when the series has no
values to compare. -/
def idxminOpt (xs : List (Option ℚ)) : Option ℕ := idxminAux 0 none xs

/-- The accumulator step of idxmaxAux, dual to idxminAux. -/
def idxmaxAux : ℕ → Option (ℕ × ℚ) → List (Option ℚ) → Option ℕ
  | _, acc, [] => acc.map Prod.fst
  | i, acc, x :: xs =>
    idxmaxAux (i + 1)
      (match x, acc with
       | none, a => a
       | some v, none => some (i, v)
       | some v, some q => if q.2 < v then some (i, v) else some q) xs

/-- pandas Series.idxmax: the position of the greatest non-NaN value, first
occurrence on ties; none models the ValueError raised when the series has no
values to compare. -/
def idxmaxOpt (xs : List (Option ℚ)) : Option ℕ := idxmaxAux 0 none xs

/-- The recent partition of generate_insights: rows with year at least 2020
(the hardcoded boundary of the source). -/
def recentRows (records : List SongRecord) : List SongRecord :=
  records.filter fun r => decide (2020 ≤ r.year)

/-- The older partition of generate_insights: rows with year below 2020. -/
def olderRows (records : List SongRecord) : List SongRecord :=
  records.filter fun r => decide (r.year < 2020)

/-- The complexity_trend entry of the insights dictionary. -/
structure TrendInfo where
  recent_average : Option ℚ
  older_average : Option ℚ
  change : Option ℚ
  trend : String
deriving DecidableEq, Repr

/-- The complexity-trend block of generate_insights: present only when both
partitions are non-empty; the averages skip NaN scores (pandas mean), the
change is recent average minus older average, and the flag is Simpler exactly
when the change compares strictly greater than zero (a NaN change compares
false in Python, giving More Complex). -/
def complexity_trend_of (records : List SongRecord) : Option TrendInfo :=
  let recent := recentRows records
  let older := olderRows records
  if 0 < recent.length ∧ 0 < older.length then
    let ra := meanOpt (recent.filterMap SongRecord.flesch_kincaid_score)
    let oa := meanOpt (older.filterMap SongRecord.flesch_kincaid_score)
    let change := ra.bind fun a => oa.map fun b => a - b
    some { recent_average := ra.map (roundQ 2)
           older_average := oa.map (roundQ 2)
           change := change.map (roundQ 2)
           trend :=
             match change with
             | some c => if 0 < c then "Simpler" else "More Complex"
             | none => "More Complex" }
  else none

/-- The top_metrics entry of the insights dictionary: the titles at the
extreme positions found by idxmin and idxmax. -/
structure TopMetrics where
  most_complex_song : String
  least_complex_song : String
  highest_lexical_diversity : String
  most_unique_words : String
deriving DecidableEq, Repr

/-- The insights dictionary built by generate_insights. -/
structure Insights where
  total_songs_analyzed : ℕ
  years_covered : Option (ℤ × ℤ)
  complexity_trend : Option TrendInfo
  top_metrics : TopMetrics
  rank_complexity : List (Option String × Option ℚ)
  yearly_complexity : List (ℤ × Option ℚ)
deriving DecidableEq, Repr

/-- LyricsTransformer.generate_insights.  The result is none when the call
raises: the source evaluates idxmin and idxmax of metric columns, which raise
ValueError when no values are present (in particular on an empty cleaned
batch).  years_covered is the min and max year (none on an empty batch, where
the source formats NaN); rank_complexity groups the score means by the
rank_category labels and yearly_complexity by year, both rounded to 2. -/
def generate_insights (records : List SongRecord) : Option Insights :=
  let scores := records.map SongRecord.flesch_kincaid_score
  match idxminOpt scores, idxmaxOpt scores,
      idxmaxOpt (records.map SongRecord.lexical_diversity),
      idxmaxOpt (records.map SongRecord.unique_words) with
  | some imin, some imax, some idiv, some iuniq =>
    some
      { total_songs_analyzed := records.length
        years_covered :=
          ((records.map SongRecord.year).min?).bind fun lo =>
            ((records.map SongRecord.year).max?).map fun hi => (lo, hi)
        complexity_trend := complexity_trend_of records
        top_metrics :=
          { most_complex_song := ((records.get? imin).map SongRecord.title).getD ""
            least_complex_song := ((records.get? imax).map SongRecord.title).getD ""
            highest_lexical_diversity := ((records.get? idiv).map SongRecord.title).getD ""
            most_unique_words := ((records.get? iuniq).map SongRecord.title).getD "" }
        rank_complexity :=
          [some "Top 10", some "Top 25", some "Top 50", some "Top 100"].map
            fun lab =>
              (lab,
               (meanOpt
                 ((records.filter fun r => decide (rank_category r.rank = lab)).filterMap
                   SongRecord.flesch_kincaid_score)).map (roundQ 2))
        yearly_complexity :=
          (sortedYears records).map fun y =>
            (y, (meanOpt (colOf SongRecord.flesch_kincaid_score records y)).map (roundQ 2)) }
  | _, _, _, _ => none

/-! ## The automation quality gate: data_quality_check of the DAG -/

/-- The data_quality_check task of the DAG, on the rows of the transformed
file it reads: computes total_records as the row count and the quantity the
source names missing_lyrics as the sum of the lyrics_found column (which
counts the True cells), then fails (false) when total_records is below 100 or
when that sum exceeds half of total_records. -/
def data_quality_check (rows : List SongRecord) : Bool :=
  let total : ℕ := rows.length
  let missing_lyrics : ℕ :=
    (rows.filter fun r => decide (r.lyrics_found = some true)).length
  if total < 100 then false
  else if (total : ℚ) * 0.5 < (missing_lyrics : ℚ) then false
  else true

/-- Modelled from the spec: the quality gate as the specification states it,
rejecting a run exactly when the total record count is below 100 or the
fraction of records with missing lyrics exceeds 50 percent. -/
def qualityGateSpec (rows : List SongRecord) : Bool :=
  let total : ℕ := rows.length
  let missing : ℕ :=
    (rows.filter fun r => decide (¬ r.lyrics_found = some true)).length
  decide (100 ≤ total) && decide ((missing : ℚ) ≤ (total : ℚ) * 0.5)

/-! ## Concrete batches used by the claim theorems -/

/-- A record template: a row whose identity, lyrics_found cell and
flesch_kincaid_score cell vary and whose other metric cells are zero. -/
def sampleRec (y rk : ℤ) (lf : Option Bool) (fk : Option ℚ) : SongRecord :=
  { year := y, rank := rk, title := "T", artist := "A", lyrics_found := lf
    unique_words := some 0, total_words := some 0, avg_sentence_length := some 0
    flesch_kincaid_score := fk, lexical_diversity := some 0 }

/-- A batch of 100 records all with lyrics_found equal to false. -/
def badBatch100 : List SongRecord :=
  List.replicate 100 (sampleRec 2020 1 (some false) (some 0))

/-- A cleaned batch whose single year group has exactly one record. -/
def singleBatch : List SongRecord := [sampleRec 2020 1 (some true) (some 50)]

/-- Three years with per-year mean scores 50, 55 and 52. -/
def batch3 : List SongRecord :=
  [sampleRec 2001 1 (some true) (some 50), sampleRec 2002 2 (some true) (some 55),
   sampleRec 2003 3 (some true) (some 52)]

/-- A transformed batch of 150 rows, every one of which has its lyrics:
lyrics_found is True on each row, so no lyrics are missing. -/
def gateRows150 : List SongRecord :=
  List.replicate 150 (sampleRec 2020 1 (some true) (some 50))

/-- One year group of two records with scores 0 and 2. -/
def pairBatch : List SongRecord :=
  [sampleRec 2020 1 (some true) (some 0), sampleRec 2020 2 (some true) (some 2)]

/-- A batch whose recent partition (year 2020) and older partition (year 2010)
both have mean score 50: the change is exactly zero. -/
def eqMeansBatch : List SongRecord :=
  [sampleRec 2020 1 (some true) (some 50), sampleRec 2010 2 (some true) (some 50)]

/-- Outlier-boundary records: scores -60, 150, -50 and 100, lyrics found. -/
def recNeg60 : SongRecord := sampleRec 2020 1 (some true) (some (-60))

/-- A record with score 150 (outside the closed interval). -/
def rec150 : SongRecord := sampleRec 2020 2 (some true) (some 150)

/-- A record with score exactly -50 (the lower closed endpoint). -/
def recNeg50 : SongRecord := sampleRec 2020 3 (some true) (some (-50))

/-- A record with score exactly 100 (the upper closed endpoint). -/
def rec100 : SongRecord := sampleRec 2020 4 (some true) (some 100)

/-! ## Helper lemmas about rounding -/

theorem le_bankersRound {a : ℤ} {q : ℚ} (h : (a : ℚ) ≤ q) : a ≤ bankersRound q := by
  have hfa : a ≤ Int.floor q := Int.le_floor.mpr h
  unfold bankersRound
  split
  · exact hfa
  · split
    · omega
    · split
      · exact hfa
      · omega

theorem bankersRound_le {b : ℤ} {q : ℚ} (h : q ≤ (b : ℚ)) : bankersRound q ≤ b := by
  have hfb : Int.floor q ≤ b := by
    have h2 := Int.floor_le_floor h
    rwa [Int.floor_intCast] at h2
  unfold bankersRound
  by_cases hlt : Int.floor q + 1 ≤ b
  · split
    · omega
    · split
      · omega
      · split
        · omega
        · omega
  · have hfq : Int.floor q = b := by omega
    have hr : q - (Int.floor q : ℚ) < 1/2 := by
      rw [hfq]
      have hz : q - (b : ℚ) ≤ 0 := by linarith
      linarith
    simp only [if_pos hr]
    omega

theorem roundQ_nonneg (n : ℕ) (q : ℚ) (h0 : 0 ≤ q) : 0 ≤ roundQ n q := by
  have hp : (0 : ℚ) < (10 : ℚ) ^ n := by positivity
  have hlo : ((0 : ℤ) : ℚ) ≤ q * (10 : ℚ) ^ n := by positivity
  have h3 := le_bankersRound hlo
  unfold roundQ
  have : (0 : ℚ) ≤ (bankersRound (q * (10 : ℚ) ^ n) : ℚ) := by exact_mod_cast h3
  positivity

theorem roundQ_le_one (n : ℕ) (q : ℚ) (h1 : q ≤ 1) : roundQ n q ≤ 1 := by
  have hp : (0 : ℚ) < (10 : ℚ) ^ n := by positivity
  have hhi : q * (10 : ℚ) ^ n ≤ (((10 : ℤ) ^ n : ℤ) : ℚ) := by
    push_cast
    nlinarith
  have h2 := bankersRound_le hhi
  unfold roundQ
  rw [div_le_one hp]
  calc (bankersRound (q * (10 : ℚ) ^ n) : ℚ) ≤ (((10 : ℤ) ^ n : ℤ) : ℚ) := by exact_mod_cast h2
    _ = (10 : ℚ) ^ n := by push_cast; ring

theorem roundQ_zero (n : ℕ) : roundQ n 0 = 0 := by
  unfold roundQ bankersRound
  rw [zero_mul]
  norm_num

/-! ## Claim C5: the outlier filter of RecordCleaner -/

theorem fkInRange_iff (o : Option ℚ) :
    fkInRange o = true ↔ ∃ s, o = some s ∧ -50 ≤ s ∧ s ≤ 100 := by
  cases o <;> simp [fkInRange]

/-- Membership characterization of the cleaned set (shared helper). -/
theorem mem_clean_data_iff (records : List SongRecord) (r : SongRecord) :
    r ∈ clean_data records ↔
      r ∈ records ∧ r.lyrics_found = some true ∧
        ∃ s, r.flesch_kincaid_score = some s ∧ -50 ≤ s ∧ s ≤ 100 := by
  unfold clean_data
  simp [List.mem_filter, fkInRange_iff, and_assoc]
  tauto

/-- C5: clean_data retains a record if and only if, among records whose
lyrics_found cell is True, its flesch_kincaid_score lies inside the closed
interval from -50 to 100; concretely, of four lyrics-found records with
scores -60, 150, -50 and 100, exactly the two at -50 and at 100 survive. -/
theorem clean_data_retains_iff :
    (∀ (records : List SongRecord) (r : SongRecord),
        r ∈ clean_data records ↔
          r ∈ records ∧ r.lyrics_found = some true ∧
            ∃ s, r.flesch_kincaid_score = some s ∧ -50 ≤ s ∧ s ≤ 100) ∧
    clean_data [recNeg60, rec150, recNeg50, rec100] = [recNeg50, rec100] := by
  exact ⟨mem_clean_data_iff, by decide⟩

/-! ## Claim C6: the complexity_category binning -/

/-- The four complexity labels of the source, in bin order. -/
def complexityLabels : List String := ["Very Complex", "Complex", "Moderate", "Simple"]

/-- C6: complexity_category buckets a score by left-open right-closed bins
with boundaries 30, 60 and 80 (a boundary score belongs to the lower bin),
and every cleaned record has a present score and hence exactly one of the
four labels. -/
theorem complexity_category_bins :
    (∀ s : ℚ,
        (complexity_category s = "Very Complex" ↔ s ≤ 30) ∧
        (complexity_category s = "Complex" ↔ 30 < s ∧ s ≤ 60) ∧
        (complexity_category s = "Moderate" ↔ 60 < s ∧ s ≤ 80) ∧
        (complexity_category s = "Simple" ↔ 80 < s)) ∧
    (∀ (records : List SongRecord) (r : SongRecord), r ∈ clean_data records →
        (r.flesch_kincaid_score.map complexity_category).isSome = true ∧
        ∀ s, r.flesch_kincaid_score = some s →
          complexity_category s ∈ complexityLabels) := by
  constructor
  · intro s
    unfold complexity_category
    split_ifs with h1 h2 h3 <;>
      refine ⟨?_, ?_, ?_, ?_⟩ <;> simp_all <;> intros <;> linarith
  · intro records r hr
    have hmem := ((mem_clean_data_iff records r).mp hr).2.2
    obtain ⟨s, hs, _, _⟩ := hmem
    refine ⟨by rw [hs]; rfl, fun s2 hs2 => ?_⟩
    unfold complexity_category
    split_ifs <;> simp [complexityLabels]

/-- Witness for C6 at the concrete cleaned record with score -50. -/
theorem complexity_category_bins_witness :
    complexity_category (-50) ∈ complexityLabels := by
  have h := (complexity_category_bins.2 [recNeg50] recNeg50 (by decide)).2 (-50) rfl
  exact h

/-! ## Claim C7: the rank_category binning -/

/-- C7: rank_category buckets a rank by the right-closed bins with edges 0,
10, 25, 50 and 100; a boundary rank belongs to the lower bin; a rank of 0, a
negative rank, or a rank above 100 falls in no bin and is left unassigned
(none), without any failure. -/
theorem rank_category_bins :
    (∀ rk : ℤ,
        (rank_category rk = some "Top 10" ↔ 0 < rk ∧ rk ≤ 10) ∧
        (rank_category rk = some "Top 25" ↔ 10 < rk ∧ rk ≤ 25) ∧
        (rank_category rk = some "Top 50" ↔ 25 < rk ∧ rk ≤ 50) ∧
        (rank_category rk = some "Top 100" ↔ 50 < rk ∧ rk ≤ 100) ∧
        (rank_category rk = none ↔ rk ≤ 0 ∨ 100 < rk)) ∧
    rank_category 10 = some "Top 10" ∧ rank_category 25 = some "Top 25" ∧
    rank_category 50 = some "Top 50" ∧ rank_category 100 = some "Top 100" ∧
    rank_category 0 = none ∧ rank_category (-5) = none ∧ rank_category 101 = none := by
  constructor
  · intro rk
    unfold rank_category
    split_ifs <;> refine ⟨?_, ?_, ?_, ?_, ?_⟩ <;> simp_all <;> omega
  · decide

/-! ## Claim C3: absent versus empty lyrics -/

/-- C3 counterexample: a song whose provider returned the empty string gets
lyrics_found equal to true (the source computes lyrics is not None), so the
claim that the empty-string input also carries lyrics_found false is wrong. -/
theorem metrics_empty_lyrics_counterexample :
    ¬ (mkSongData 2020 1 "Song" "Artist" (some [])).lyrics_found = false := by
  decide

/-- C3 amended: absent lyrics and empty-string lyrics produce identical
all-zero metrics, but the resulting record carries lyrics_found false only for
the absent input; the empty-string input yields lyrics_found true. -/
theorem metrics_absent_vs_empty :
    calculate_complexity_metrics none = calculate_complexity_metrics (some []) ∧
    calculate_complexity_metrics none =
      { unique_words := 0, total_words := 0, avg_sentence_length := 0
        flesch_kincaid_score := 0, lexical_diversity := 0 } ∧
    (∀ (y rk : ℤ) (t a : String), (mkSongData y rk t a none).lyrics_found = false) ∧
    (∀ (y rk : ℤ) (t a : String), (mkSongData y rk t a (some [])).lyrics_found = true) := by
  exact ⟨by decide, by decide, fun y rk t a => rfl, fun y rk t a => rfl⟩

/-! ## Claim C4: the data_quality_check gate -/

unseal Rat.mul Rat.ofScientific in
set_option maxRecDepth 10000 in
/-- C4 (code bug): a complete transformed run of 150 rows, none of which is
missing its lyrics, is rejected by the implemented gate even though it meets
both thresholds of the claim, because the source sums the lyrics_found column
(the count of rows WITH lyrics) into its missing_lyrics quantity; the gate as
specified (qualityGateSpec) passes the same run. -/
theorem quality_gate_rejects_complete_run :
    gateRows150.length = 150 ∧
    (gateRows150.filter fun r => decide (¬ r.lyrics_found = some true)).length = 0 ∧
    data_quality_check gateRows150 = false ∧
    qualityGateSpec gateRows150 = true := by
  refine ⟨by decide, by decide, by decide, by decide⟩

/-! ## Claim C1: insight extraction on an empty batch -/

set_option maxRecDepth 4000 in
/-- C1 counterexample: the batch of 100 records all with lyrics_found false
cleans to the empty set, and generate_insights on that empty set does not
return a summary: it is none, modelling the ValueError that the source raises
at idxmin of the empty score series, contradicting the claimed
distinguishable no-data result. -/
theorem insights_empty_batch_counterexample :
    clean_data badBatch100 = [] ∧
    (generate_insights (clean_data badBatch100)).isSome = false := by
  exact ⟨by decide, by decide⟩

set_option maxRecDepth 4000 in
/-- C1 amended: a batch of 100 records all with lyrics_found false yields an
empty cleaned set, and generate_insights invoked on an empty batch raises
(returns none, the model of the ValueError from idxmin over an empty series)
instead of producing an EmptyBatch summary. -/
theorem insights_empty_batch_raises :
    generate_insights ([] : List SongRecord) = none ∧
    clean_data badBatch100 = [] ∧
    generate_insights (clean_data badBatch100) = none := by
  exact ⟨rfl, by decide, by decide⟩

/-! ## Claim C9: bounds on the lexical diversity -/

/-- C9: for every lyric text (absent, empty, whitespace-only or arbitrary),
the computed lexical_diversity lies in the closed unit interval, the unique
word count never exceeds the total word count, and a text with no words has
lexical_diversity exactly zero. -/
theorem diversity_bounds (lyrics : Option (List Char)) :
    0 ≤ (calculate_complexity_metrics lyrics).lexical_diversity ∧
    (calculate_complexity_metrics lyrics).lexical_diversity ≤ 1 ∧
    (calculate_complexity_metrics lyrics).unique_words ≤
      (calculate_complexity_metrics lyrics).total_words ∧
    ((calculate_complexity_metrics lyrics).total_words = 0 →
      (calculate_complexity_metrics lyrics).lexical_diversity = 0) := by
  match lyrics with
  | none => simp [calculate_complexity_metrics]
  | some s =>
    by_cases hs : s.isEmpty
    · simp [calculate_complexity_metrics, hs]
    · have htot : (calculate_complexity_metrics (some s)).total_words = (pyWords s).length := by
        simp [calculate_complexity_metrics, hs]
      have huniq : (calculate_complexity_metrics (some s)).unique_words =
          (pyWords s).dedup.length := by
        simp [calculate_complexity_metrics, hs]
      have hdiv : (calculate_complexity_metrics (some s)).lexical_diversity =
          roundQ 3 (if 0 < (pyWords s).length then
            ((pyWords s).dedup.length : ℚ) / ((pyWords s).length : ℚ) else 0) := by
        simp [calculate_complexity_metrics, hs]
      have hdl : (pyWords s).dedup.length ≤ (pyWords s).length :=
        (List.dedup_sublist (pyWords s)).length_le
      rw [htot, huniq, hdiv]
      by_cases ht : 0 < (pyWords s).length
      · have htq : (0 : ℚ) < ((pyWords s).length : ℚ) := by exact_mod_cast ht
        have h0 : (0 : ℚ) ≤ ((pyWords s).dedup.length : ℚ) / ((pyWords s).length : ℚ) :=
          div_nonneg (by positivity) htq.le
        have h1 : ((pyWords s).dedup.length : ℚ) / ((pyWords s).length : ℚ) ≤ 1 := by
          rw [div_le_one htq]
          exact_mod_cast hdl
        refine ⟨?_, ?_, hdl, fun hz => absurd hz (by omega)⟩
        · rw [if_pos ht]
          exact roundQ_nonneg 3 _ h0
        · rw [if_pos ht]
          exact roundQ_le_one 3 _ h1
      · rw [if_neg ht]
        exact ⟨by rw [roundQ_zero], by rw [roundQ_zero]; norm_num, hdl, fun _ => roundQ_zero 3⟩

unseal Rat.add Rat.mul Rat.inv Rat.sub Rat.ofScientific in
/-- Witness for C9 at the whitespace-only text: it has zero words, and its
lexical_diversity is zero by the zero-words clause of the theorem. -/
theorem diversity_bounds_witness :
    (calculate_complexity_metrics (some [' '])).lexical_diversity = 0 ∧
    (calculate_complexity_metrics (some [' '])).total_words = 0 := by
  exact ⟨(diversity_bounds (some [' '])).2.2.2 (by decide), by decide⟩

/-! ## Claim C10: the trend direction flag of the insights -/

/-- C10: whenever the trend block of generate_insights is produced, its flag
reads Simpler exactly when both partition means exist and the recent mean
strictly exceeds the older one; in particular, when the two partition means
are exactly equal (change zero) the flag is More Complex. -/
theorem trend_flag_spec (records : List SongRecord) :
    (∀ t, complexity_trend_of records = some t →
        (t.trend = "Simpler" ↔
          ∃ ra oa,
            meanOpt ((recentRows records).filterMap SongRecord.flesch_kincaid_score) = some ra ∧
            meanOpt ((olderRows records).filterMap SongRecord.flesch_kincaid_score) = some oa ∧
            oa < ra)) ∧
    (meanOpt ((recentRows records).filterMap SongRecord.flesch_kincaid_score) =
        meanOpt ((olderRows records).filterMap SongRecord.flesch_kincaid_score) →
      ∀ t, complexity_trend_of records = some t → t.trend = "More Complex") := by
  by_cases hcond : 0 < (recentRows records).length ∧ 0 < (olderRows records).length
  case neg =>
    have hnone : complexity_trend_of records = none := by
      simp only [complexity_trend_of]
      rw [if_neg hcond]
    constructor
    · intro t ht
      rw [hnone] at ht
      exact absurd ht (by simp)
    · intro _ t ht
      rw [hnone] at ht
      exact absurd ht (by simp)
  case pos =>
    cases hra : meanOpt ((recentRows records).filterMap SongRecord.flesch_kincaid_score) with
    | none =>
      have ht0 : complexity_trend_of records =
          some { recent_average := none
                 older_average :=
                   (meanOpt ((olderRows records).filterMap
                     SongRecord.flesch_kincaid_score)).map (roundQ 2)
                 change := none, trend := "More Complex" } := by
        simp only [complexity_trend_of]
        rw [if_pos hcond, hra]
        rfl
      constructor
      · intro t h2
        rw [ht0, Option.some_inj] at h2
        subst h2
        constructor
        · intro hbad
          exact absurd hbad (by simp)
        · rintro ⟨ra, oa, hra2, _, _⟩
          exact absurd hra2 (by simp)
      · intro _ t h2
        rw [ht0, Option.some_inj] at h2
        subst h2
        rfl
    | some a =>
      cases hoa : meanOpt ((olderRows records).filterMap SongRecord.flesch_kincaid_score) with
      | none =>
        have ht0 : complexity_trend_of records =
            some { recent_average := some (roundQ 2 a), older_average := none
                   change := none, trend := "More Complex" } := by
          simp only [complexity_trend_of]
          rw [if_pos hcond, hra, hoa]
          rfl
        constructor
        · intro t h2
          rw [ht0, Option.some_inj] at h2
          subst h2
          constructor
          · intro hbad
            exact absurd hbad (by simp)
          · rintro ⟨ra, oa, _, hoa2, _⟩
            exact absurd hoa2 (by simp)
        · intro _ t h2
          rw [ht0, Option.some_inj] at h2
          subst h2
          rfl
      | some b =>
        by_cases hc : 0 < a - b
        · have ht0 : complexity_trend_of records =
              some { recent_average := some (roundQ 2 a), older_average := some (roundQ 2 b)
                     change := some (roundQ 2 (a - b)), trend := "Simpler" } := by
            simp only [complexity_trend_of]
            rw [if_pos hcond, hra, hoa]
            simp only [Option.some_bind, Option.map_some']
            rw [if_pos hc]
          constructor
          · intro t h2
            rw [ht0, Option.some_inj] at h2
            subst h2
            constructor
            · intro _
              exact ⟨a, b, rfl, rfl, by linarith⟩
            · intro _
              rfl
          · intro hmeans t h2
            rw [Option.some_inj] at hmeans
            subst hmeans
            exact absurd hc (by linarith)
        · have ht0 : complexity_trend_of records =
              some { recent_average := some (roundQ 2 a), older_average := some (roundQ 2 b)
                     change := some (roundQ 2 (a - b)), trend := "More Complex" } := by
            simp only [complexity_trend_of]
            rw [if_pos hcond, hra, hoa]
            simp only [Option.some_bind, Option.map_some']
            rw [if_neg hc]
          constructor
          · intro t h2
            rw [ht0, Option.some_inj] at h2
            subst h2
            simp only
            constructor
            · intro hbad
              exact absurd hbad (by simp)
            · rintro ⟨ra, oa, hra2, hoa2, hlt⟩
              rw [Option.some_inj] at hra2
              rw [Option.some_inj] at hoa2
              subst hra2
              subst hoa2
              exact absurd hlt (by linarith)
          · intro _ t h2
            rw [ht0, Option.some_inj] at h2
            subst h2
            rfl

/-- The trend block computed on eqMeansBatch: both averages are 50, the
change is zero. -/
def eqTrendInfo : TrendInfo :=
  { recent_average := some 50, older_average := some 50
    change := some 0, trend := "More Complex" }

unseal Rat.add Rat.mul Rat.inv Rat.sub Rat.ofScientific in
/-- Witness for C10 at the batch whose partitions have exactly equal means:
the flag comes out More Complex. -/
theorem trend_flag_spec_witness :
    (complexity_trend_of eqMeansBatch).map TrendInfo.trend = some "More Complex" := by
  have hsome : complexity_trend_of eqMeansBatch = some eqTrendInfo := by decide
  have hmean : meanOpt ((recentRows eqMeansBatch).filterMap SongRecord.flesch_kincaid_score) =
      meanOpt ((olderRows eqMeansBatch).filterMap SongRecord.flesch_kincaid_score) := by decide
  have h := (trend_flag_spec eqMeansBatch).2 hmean eqTrendInfo hsome
  rw [hsome, Option.map_some', h]

/-! ## Claim C2: the per-year standard deviation -/

theorem stdsqOpt_none_iff (xs : List ℚ) : stdsqOpt xs = none ↔ xs.length ≤ 1 := by
  unfold stdsqOpt
  split <;> simp_all

theorem stdsqOpt_some_eq (xs : List ℚ) (v : ℚ) (h : stdsqOpt xs = some v) :
    v * ((xs.length : ℚ) - 1) = ((xs.map fun x => (x - meanQ xs) ^ 2).sum) := by
  unfold stdsqOpt at h
  split at h
  · simp at h
  · next hn =>
    rw [Option.some_inj] at h
    subst h
    have hx : 2 ≤ xs.length := by omega
    have hx2 : (2 : ℚ) ≤ (xs.length : ℚ) := by exact_mod_cast hx
    have h2 : ((xs.length : ℚ) - 1) ≠ 0 := by linarith
    exact div_mul_cancel₀ _ h2

/-- Every row of yearly_stats is the aggregation row of its own year with some
trend value written into the complexity_trend column. -/
theorem yearly_stats_mem (records : List SongRecord) (st : YearlyStat)
    (h : st ∈ yearly_stats records) :
    ∃ t, st = { baseStat records st.year with complexity_trend := t } := by
  unfold yearly_stats at h
  obtain ⟨i, hi, heq⟩ := List.mem_iff_getElem.mp h
  rw [List.getElem_zipWith, List.getElem_map] at heq
  subst heq
  exact ⟨_, rfl⟩

/-- C2 amended: the per-year spread statistic of each of the four numeric
metrics is the pandas sample standard deviation (ddof = 1), not the population
one: its square is the sum of squared deviations from the group mean divided
by n - 1, and it is NaN (none) - not 0 - whenever the year group carries at
most one value. -/
theorem yearly_std_is_sample_std (records : List SongRecord) (st : YearlyStat)
    (h : st ∈ yearly_stats records) :
    ((st.flesch_kincaid_score_stdsq = none ↔
        (colOf SongRecord.flesch_kincaid_score records st.year).length ≤ 1) ∧
      ∀ v, st.flesch_kincaid_score_stdsq = some v →
        v * (((colOf SongRecord.flesch_kincaid_score records st.year).length : ℚ) - 1) =
          (((colOf SongRecord.flesch_kincaid_score records st.year).map
            (fun x => (x - meanQ (colOf SongRecord.flesch_kincaid_score records st.year)) ^ 2)).sum)) ∧
    ((st.lexical_diversity_stdsq = none ↔
        (colOf SongRecord.lexical_diversity records st.year).length ≤ 1) ∧
      ∀ v, st.lexical_diversity_stdsq = some v →
        v * (((colOf SongRecord.lexical_diversity records st.year).length : ℚ) - 1) =
          (((colOf SongRecord.lexical_diversity records st.year).map
            (fun x => (x - meanQ (colOf SongRecord.lexical_diversity records st.year)) ^ 2)).sum)) ∧
    ((st.unique_words_stdsq = none ↔
        (colOf SongRecord.unique_words records st.year).length ≤ 1) ∧
      ∀ v, st.unique_words_stdsq = some v →
        v * (((colOf SongRecord.unique_words records st.year).length : ℚ) - 1) =
          (((colOf SongRecord.unique_words records st.year).map
            (fun x => (x - meanQ (colOf SongRecord.unique_words records st.year)) ^ 2)).sum)) ∧
    ((st.total_words_stdsq = none ↔
        (colOf SongRecord.total_words records st.year).length ≤ 1) ∧
      ∀ v, st.total_words_stdsq = some v →
        v * (((colOf SongRecord.total_words records st.year).length : ℚ) - 1) =
          (((colOf SongRecord.total_words records st.year).map
            (fun x => (x - meanQ (colOf SongRecord.total_words records st.year)) ^ 2)).sum)) := by
  obtain ⟨t, ht⟩ := yearly_stats_mem records st h
  have h1 : st.flesch_kincaid_score_stdsq =
      stdsqOpt (colOf SongRecord.flesch_kincaid_score records st.year) := by
    conv_lhs => rw [ht]
    rfl
  have h2 : st.lexical_diversity_stdsq =
      stdsqOpt (colOf SongRecord.lexical_diversity records st.year) := by
    conv_lhs => rw [ht]
    rfl
  have h3 : st.unique_words_stdsq =
      stdsqOpt (colOf SongRecord.unique_words records st.year) := by
    conv_lhs => rw [ht]
    rfl
  have h4 : st.total_words_stdsq =
      stdsqOpt (colOf SongRecord.total_words records st.year) := by
    conv_lhs => rw [ht]
    rfl
  rw [h1, h2, h3, h4]
  exact ⟨⟨stdsqOpt_none_iff _, fun v hv => stdsqOpt_some_eq _ v hv⟩,
    ⟨stdsqOpt_none_iff _, fun v hv => stdsqOpt_some_eq _ v hv⟩,
    ⟨stdsqOpt_none_iff _, fun v hv => stdsqOpt_some_eq _ v hv⟩,
    ⟨stdsqOpt_none_iff _, fun v hv => stdsqOpt_some_eq _ v hv⟩⟩

unseal Rat.add Rat.mul Rat.inv Rat.sub Rat.ofScientific in
/-- C2 counterexample: a cleaned batch with a single record (one year group of
size one) gets a NaN (none) standard deviation for that year, not 0, so the
claim that a singleton group has standard deviation 0 is false on the code. -/
theorem yearly_std_singleton_counterexample :
    ((yearly_stats (clean_data singleBatch)).map
        YearlyStat.flesch_kincaid_score_stdsq = [none]) ∧
    ([none] : List (Option ℚ)) ≠ [some 0] := by
  exact ⟨by decide, by decide⟩

/-- The single aggregation row that yearly_stats produces on pairBatch,
written out in full: the two scores 0 and 2 have mean 1 and sample variance
(squared std) 2. -/
def pairRow : YearlyStat :=
  { year := 2020
    flesch_kincaid_score_mean := some 1
    flesch_kincaid_score_stdsq := some 2
    flesch_kincaid_score_median := some 1
    lexical_diversity_mean := some 0
    lexical_diversity_stdsq := some 0
    lexical_diversity_median := some 0
    unique_words_mean := some 0
    unique_words_stdsq := some 0
    unique_words_median := some 0
    total_words_mean := some 0
    total_words_stdsq := some 0
    total_words_median := some 0
    complexity_trend := none }

unseal Rat.add Rat.mul Rat.inv Rat.sub Rat.ofScientific in
/-- Witness for C2 on the two-record year group with scores 0 and 2: its
squared std 2 satisfies the ddof = 1 sample-variance equation. -/
theorem yearly_std_is_sample_std_witness :
    (2 : ℚ) * (((colOf SongRecord.flesch_kincaid_score pairBatch pairRow.year).length : ℚ) - 1) =
      ((colOf SongRecord.flesch_kincaid_score pairBatch pairRow.year).map
        (fun x => (x - meanQ (colOf SongRecord.flesch_kincaid_score pairBatch pairRow.year)) ^ 2)).sum := by
  exact (yearly_std_is_sample_std pairBatch pairRow (by decide)).1.2 2 (by decide)

/-! ## Claim C8: ordering and trend column of the yearly statistics -/

theorem seriesDiff_length (xs : List (Option ℚ)) : (seriesDiff xs).length = xs.length := by
  cases xs with
  | nil => rfl
  | cons x rest => simp [seriesDiff, List.length_zipWith]

theorem seriesDiff_getElem_zero (xs : List (Option ℚ))
    (h0 : 0 < (seriesDiff xs).length) : (seriesDiff xs)[0] = none := by
  cases xs with
  | nil => simp [seriesDiff] at h0
  | cons x rest => rfl

theorem seriesDiff_getElem_succ (xs : List (Option ℚ)) (i : ℕ)
    (hi : i + 1 < (seriesDiff xs).length) :
    (seriesDiff xs)[i + 1] =
      (xs.get ⟨i, by rw [seriesDiff_length] at hi; omega⟩).bind fun pv =>
        (xs.get ⟨i + 1, by rw [seriesDiff_length] at hi; omega⟩).map fun cv => cv - pv := by
  cases xs with
  | nil => simp [seriesDiff] at hi
  | cons x rest =>
    simp only [seriesDiff, List.getElem_cons_succ, List.getElem_zipWith,
      List.get_eq_getElem]

theorem sortedYears_sorted (records : List SongRecord) :
    List.Sorted (· < ·) (sortedYears records) := by
  have hs : List.Sorted (· ≤ ·) (sortedYears records) :=
    List.sorted_insertionSort (· ≤ ·) (records.map SongRecord.year).dedup
  have hnd : (sortedYears records).Nodup :=
    (List.perm_insertionSort (· ≤ ·) (records.map SongRecord.year).dedup).nodup_iff.mpr
      (List.nodup_dedup (records.map SongRecord.year))
  exact hs.lt_of_le hnd

theorem map_year_zipWith (base : List YearlyStat) (ts : List (Option ℚ))
    (h : base.length ≤ ts.length) :
    (List.zipWith (fun st t => { st with complexity_trend := t }) base ts).map
      YearlyStat.year = base.map YearlyStat.year := by
  induction base generalizing ts with
  | nil => simp
  | cons b bs ih =>
    cases ts with
    | nil => simp at h
    | cons t ts2 =>
      simp only [List.zipWith_cons_cons, List.map_cons]
      rw [ih ts2 (by simpa using h)]

theorem map_year_baseStat (records : List SongRecord) (ys : List ℤ) :
    (ys.map (baseStat records)).map YearlyStat.year = ys := by
  induction ys with
  | nil => rfl
  | cons y ys2 ih =>
    simp only [List.map_cons]
    rw [ih]
    rfl

theorem yearly_stats_map_year (records : List SongRecord) :
    (yearly_stats records).map YearlyStat.year = sortedYears records := by
  unfold yearly_stats
  rw [map_year_zipWith]
  · exact map_year_baseStat records (sortedYears records)
  · simp [seriesDiff_length]

unseal Rat.add Rat.mul Rat.inv Rat.sub Rat.ofScientific in
set_option maxRecDepth 8000 in
/-- C8: the yearly statistics rows are ordered by strictly ascending year, the
first row has no complexity_trend, and every later row carries its own mean
flesch_kincaid_score minus the previous row mean (whenever both means exist,
else NaN); on three years with mean scores 50, 55 and 52 the trend column is
none, 5, -3. -/
theorem yearly_trend_is_first_difference :
    (∀ records : List SongRecord,
        List.Pairwise (fun a b => a.year < b.year) (yearly_stats records) ∧
        (∀ h0 : 0 < (yearly_stats records).length,
            ((yearly_stats records)[0]).complexity_trend = none) ∧
        (∀ (i : ℕ) (hi : i + 1 < (yearly_stats records).length),
            ((yearly_stats records)[i + 1]).complexity_trend =
              ((yearly_stats records)[i]).flesch_kincaid_score_mean.bind fun m =>
                ((yearly_stats records)[i + 1]).flesch_kincaid_score_mean.map fun mm =>
                  mm - m)) ∧
    (yearly_stats (clean_data batch3)).map
        (fun st => (st.year, st.flesch_kincaid_score_mean, st.complexity_trend)) =
      [(2001, some 50, none), (2002, some 55, some 5), (2003, some 52, some (-3))] := by
  constructor
  · intro records
    refine ⟨?_, ?_, ?_⟩
    · have hsorted : List.Sorted (· < ·) ((yearly_stats records).map YearlyStat.year) := by
        rw [yearly_stats_map_year]
        exact sortedYears_sorted records
      exact List.pairwise_map.mp hsorted
    · intro h0
      unfold yearly_stats at h0 ⊢
      rw [List.length_zipWith, seriesDiff_length] at h0
      simp only [List.length_map, Nat.min_self] at h0
      simp only [List.getElem_zipWith]
      exact seriesDiff_getElem_zero _ (by rw [seriesDiff_length]; simpa using h0)
    · intro i hi
      unfold yearly_stats at hi ⊢
      simp only [List.getElem_zipWith, List.getElem_map]
      rw [seriesDiff_getElem_succ]
      simp only [List.get_eq_getElem, List.getElem_map]
  · decide

unseal Rat.add Rat.mul Rat.inv Rat.sub Rat.ofScientific in
set_option maxRecDepth 8000 in
/-- Witness for C8 on batch3: applying the first-difference relation at the
second row gives exactly the mean difference 55 - 50 = 5. -/
theorem yearly_trend_is_first_difference_witness :
    ((yearly_stats (clean_data batch3)).get ⟨1, by decide⟩).complexity_trend = some 5 := by
  have h := (yearly_trend_is_first_difference.1 (clean_data batch3)).2.2 0 (by decide)
  rw [List.get_eq_getElem, h]
  decide

end LyricsPipeline
